import Mathlib

/-!
Shallow embedding of the QuickCart order & stock-reservation core.

Sources embedded:
- `src/models/order.py`, `src/models/product.py` (data model),
- `src/repositories/order_repository.py` (`OrderRepository`),
- `src/repositories/product_repository.py` (`ProductRepository`),
- `src/core/config.py` (`Settings.calculate_payment_fee`),
- `src/integrations/pakasir.py` (`PakasirClient.validate_webhook_signature`),
- `src/main.py` (`pakasir_webhook`).

Modelling conventions: the SQLAlchemy session is a `DB` value threaded
explicitly; `session.flush`/`refresh` are the identity on this model;
timestamps are integers (seconds); `datetime.utcnow()` is an explicit
`now` argument; SQL `Numeric` money columns are integers (all amounts in
the repository are whole rupiah).  Row updates address rows by primary
key (`id`), which is how SQLAlchemy identity works given the primary-key
uniqueness the schema enforces.
-/

namespace QuickCart

/-- `ProductStock` row (src/models/product.py): one sellable digital unit.
`order_id` is the nullable reservation owner, `is_sold` the sold flag. -/
structure ProductStock where
  id : Nat
  product_id : Nat
  content : String
  order_id : Option Nat
  is_sold : Bool
  updated_at : Int
deriving DecidableEq

/-- `OrderItem` row (src/models/order.py): one line of an order,
referencing exactly one stock unit. -/
structure OrderItem where
  id : Nat
  order_id : Nat
  product_id : Nat
  stock_id : Nat
  price_per_unit : Int
deriving DecidableEq

/-- `Order` row (src/models/order.py).  `items` is the joined
`OrderItem` relationship (`lazy="joined"`). -/
structure Order where
  id : Nat
  invoice_id : String
  user_id : Nat
  subtotal : Int
  voucher_discount : Int
  payment_fee : Int
  total_bill : Int
  payment_method : String
  status : String
  created_at : Int
  updated_at : Int
  items : List OrderItem
deriving DecidableEq

/-- The relational store the repositories run against: the `orders` and
`product_stocks` tables. -/
structure DB where
  orders : List Order
  stocks : List ProductStock
deriving DecidableEq

namespace OrderRepository

/-- `OrderRepository.get_by_id`: `select(Order).where(Order.id == order_id)`,
`scalar_one_or_none`. -/
def get_by_id (db : DB) (order_id : Nat) : Option Order :=
  db.orders.find? (fun o => o.id == order_id)

/-- `OrderRepository.get_by_invoice_id`. -/
def get_by_invoice_id (db : DB) (invoice_id : String) : Option Order :=
  db.orders.find? (fun o => o.invoice_id == invoice_id)

/-- `OrderRepository.has_pending_order`: `count > 0` over
`user_id == user_id AND status == "pending"` (CR-002 check). -/
def has_pending_order (db : DB) (user_id : Nat) : Bool :=
  0 < db.orders.countP (fun o => o.user_id == user_id && o.status == "pending")

/-- `OrderRepository.create`: unconditional insert of the new row.  The
source performs no duplicate-pending check here; its docstring says
"Caller must check has_pending_order() first (CR-002)". -/
def create (db : DB) (order : Order) : Order × DB :=
  (order, { db with orders := db.orders ++ [order] })

/-- `OrderRepository.update_status`: load by id, set `status` and
`updated_at` unconditionally; `none` when the order does not exist. -/
def update_status (db : DB) (order_id : Nat) (new_status : String) (now : Int) :
    Option Order × DB :=
  match get_by_id db order_id with
  | none => (none, db)
  | some o =>
    (some { o with status := new_status, updated_at := now },
     { db with orders := db.orders.map (fun p =>
         if p.id == order_id then { p with status := new_status, updated_at := now } else p) })

/-- The stock-release loop shared by `cancel_order`/`expire_order`:
`for item in order.items: stock = session.get(ProductStock, item.stock_id);
stock.is_sold = False; stock.order_id = None; stock.updated_at = utcnow()`. -/
def releaseItems (stocks : List ProductStock) (items : List OrderItem) (now : Int) :
    List ProductStock :=
  stocks.map (fun s =>
    if items.any (fun it => it.stock_id == s.id) then
      { s with is_sold := false, order_id := none, updated_at := now }
    else s)

/-- `OrderRepository.cancel_order`: if the order exists, set status to
`"cancelled"` (no check of the current status) and release its items'
stock; `false` only when the order does not exist. -/
def cancel_order (db : DB) (order_id : Nat) (now : Int) : Bool × DB :=
  match get_by_id db order_id with
  | none => (false, db)
  | some o =>
    (true,
     { db with
        orders := db.orders.map (fun p =>
          if p.id == order_id then { p with status := "cancelled", updated_at := now } else p),
        stocks := releaseItems db.stocks o.items now })

/-- `OrderRepository.expire_order`: `if not order or order.status != "pending":
return False`; otherwise set status to `"expired"` and release the
items' stock. -/
def expire_order (db : DB) (order_id : Nat) (now : Int) : Bool × DB :=
  match get_by_id db order_id with
  | none => (false, db)
  | some o =>
    if o.status != "pending" then (false, db)
    else
      (true,
       { db with
          orders := db.orders.map (fun p =>
            if p.id == order_id then { p with status := "expired", updated_at := now } else p),
          stocks := releaseItems db.stocks o.items now })

/-- `OrderRepository.complete_order`: if the order exists, set status to
`"paid"` and `updated_at`, unconditionally — the source has no check of
the current status; `none` only when the order does not exist. -/
def complete_order (db : DB) (order_id : Nat) (now : Int) : Option Order × DB :=
  match get_by_id db order_id with
  | none => (none, db)
  | some o =>
    (some { o with status := "paid", updated_at := now },
     { db with orders := db.orders.map (fun p =>
         if p.id == order_id then { p with status := "paid", updated_at := now } else p) })

/-- `timedelta(minutes=10)` of `get_expired_payments`, in seconds. -/
def paymentWindowSeconds : Int := 600

/-- `OrderRepository.get_expired_payments`: orders with
`status == "pending" AND created_at <= utcnow() - 10 minutes`, capped by
`.limit(limit)` (source default `limit = 100`). -/
def get_expired_payments (db : DB) (now : Int) (limit : Nat) : List Order :=
  (db.orders.filter (fun o =>
    o.status == "pending" && decide (o.created_at ≤ now - paymentWindowSeconds))).take limit

end OrderRepository

namespace ProductRepository

/-- `ProductRepository.get_available_stocks`: unsold units of the
product; the `limit` is applied only when Python-truthy (`if limit:`),
so `None` and `0` both mean "no limit". -/
def get_available_stocks (db : DB) (product_id : Nat) (limit : Option Nat) :
    List ProductStock :=
  let base := db.stocks.filter (fun s => s.product_id == product_id && s.is_sold == false)
  match limit with
  | none => base
  | some l => if l == 0 then base else base.take l

/-- `ProductRepository.get_available_stock_count`: `count` of unsold
units of the product. -/
def get_available_stock_count (db : DB) (product_id : Nat) : Nat :=
  (db.stocks.filter (fun s => s.product_id == product_id && s.is_sold == false)).length

/-- `ProductRepository.reserve_stock`: fetch up to `quantity` available
units; raise `ValueError("Insufficient stock: ...")` when fewer were
fetched, mutating nothing; otherwise mark `stocks[:quantity]` as
`is_sold = True, order_id = order_id` and return them. -/
def reserve_stock (db : DB) (product_id quantity order_id : Nat) :
    Except String (List ProductStock) × DB :=
  let stocks := get_available_stocks db product_id (some quantity)
  if stocks.length < quantity then
    (.error ("Insufficient stock: requested " ++ toString quantity ++
      ", available " ++ toString stocks.length), db)
  else
    let chosen := stocks.take quantity
    let ids := chosen.map (fun s => s.id)
    (.ok (chosen.map (fun s => { s with is_sold := true, order_id := some order_id })),
     { db with stocks := db.stocks.map (fun s =>
         if ids.contains s.id then { s with is_sold := true, order_id := some order_id }
         else s) })

/-- `ProductRepository.release_stock`: select every unit with
`order_id == order_id`, set `is_sold = False, order_id = None`, and
return how many were released. -/
def release_stock (db : DB) (order_id : Nat) : Nat × DB :=
  ((db.stocks.filter (fun s => s.order_id == some order_id)).length,
   { db with stocks := db.stocks.map (fun s =>
       if s.order_id == some order_id then { s with is_sold := false, order_id := none }
       else s) })

/-- `ProductRepository.get_stock_by_id`. -/
def get_stock_by_id (db : DB) (stock_id : Nat) : Option ProductStock :=
  db.stocks.find? (fun s => s.id == stock_id)

/-- `ProductRepository.delete_stock`: delete the unit only
`if stock and not stock.is_sold`; otherwise return `False` changing
nothing. -/
def delete_stock (db : DB) (stock_id : Nat) : Bool × DB :=
  match db.stocks.find? (fun s => s.id == stock_id) with
  | none => (false, db)
  | some s =>
    if !s.is_sold then
      (true, { db with stocks := db.stocks.eraseP (fun t => t.id == stock_id) })
    else (false, db)

end ProductRepository

namespace Settings

/-- The exact rational value of the IEEE-754 double literal `0.007`
(`Settings.payment_fee_percentage`): the significand nearest to
`0.007 * 2 ^ 60` is `8070450532247929`. -/
def payment_fee_percentage : ℚ := 8070450532247929 / 2 ^ 60

/-- `Settings.payment_fee_fixed` (Rp310). -/
def payment_fee_fixed : Int := 310

/-- `Settings.calculate_payment_fee`:
`fee = int(subtotal * self.payment_fee_percentage) + self.payment_fee_fixed`.
`int()` truncates toward zero, which on the non-negative product is the
floor.  The Python product is the correctly-rounded double
`fl(subtotal * 0.007)`; for every subtotal below `2 ^ 44` the fractional
part of `subtotal * 0.007` sits at least `1/1000 - 2 ^ 44 * 2 ^ -60` away
from the next integer while the rounding error of the product is below
`2 ^ 44 * 0.007 * 2 ^ -52`, so truncating the rounded product equals
truncating the exact product; the exact product is used here. -/
def calculate_payment_fee (subtotal : Nat) : Int :=
  ⌊(subtotal : ℚ) * payment_fee_percentage⌋ + payment_fee_fixed

end Settings

/-- The fee formula as the spec words it — `round(subtotal * feeRate) +
fixedFee` with `feeRate = 0.007`, `fixedFee = 310` — written for the
refinement comparison against `Settings.calculate_payment_fee`. -/
def spec_payment_fee (subtotal : Nat) : Int :=
  round ((subtotal : ℚ) * (7 / 1000)) + 310

/-- The JSON fields of the Pakasir webhook body that `pakasir_webhook`
reads (`data.get(...)`): absent keys are `none`; `telegram_id` is
`metadata.get("telegram_id")`. -/
structure WebhookPayload where
  order_id : Option String
  status : Option String
  amount : Option Int
  payment_method : Option String
  telegram_id : Option Int
deriving DecidableEq

/-- An inbound webhook request: JSON payload plus the optional
`X-Pakasir-Signature` header. -/
structure WebhookRequest where
  payload : WebhookPayload
  signature : Option String
deriving DecidableEq

/-- The configuration the webhook path consults
(`settings.pakasir_webhook_secret`, default `None`). -/
structure AppConfig where
  pakasir_webhook_secret : Option String
deriving DecidableEq

/-- The externally observable world the handler acts on: the relational
store and the log of Telegram messages pushed via
`bot_app.bot.send_message` (chat id, text).  The bot is initialized
(`if bot_app:` is true). -/
structure WorldState where
  db : DB
  sent_messages : List (Int × String)
deriving DecidableEq

/-- `PakasirClient.validate_webhook_signature`: with no secret
configured it returns `True` ("skip validation"); with a secret
configured the source is a TODO stub — "For now, return True to not
block webhooks" — even though its docstring promises "False if
invalid". -/
def validate_webhook_signature (webhook_secret : Option String)
    (signature : String) (payload : WebhookPayload) : Bool :=
  match webhook_secret with
  | none => true
  | some _ => true

/-- Python truthiness of an optional string (`not order_id`): absent or
empty is falsy. -/
def truthyStr : Option String → Bool
  | none => false
  | some s => !(s == "")

/-- Python truthiness of an optional integer (`not amount`): absent or
zero is falsy. -/
def truthyInt : Option Int → Bool
  | none => false
  | some n => !(n == 0)

/-- `int(order_id.split("-")[0].replace("tg", ""))` — the fallback
extraction of the Telegram chat id from the gateway order id; `none`
models the `ValueError` of `int()`. -/
def extract_telegram_id (order_id : String) : Option Int :=
  (((order_id.splitOn "-").headD "").replace "tg" "").toInt?

/-- The fulfilment message `pakasir_webhook` sends on a `completed`
webhook (the f-string at src/main.py lines 231-237). -/
def fulfilment_message (order_id : String) : String :=
  "🎉 Pesanan berhasil!\n📦 Produk: Premium Account\n🔢 Jumlah: 1\n🧾 Invoice: "
    ++ order_id
    ++ "\nTerima kasih telah berbelanja! Silakan cek detail produk di bawah ini. 😊"

/-- The body of `pakasir_webhook` after the signature gate: field
validation, then dispatch on `status`.  On `completed` the source only
*logs* "Updating order ... to 'paid' in the database" — no store write
happens — and sends the fulfilment message; `expired` and `pending`
only log. -/
def pakasir_webhook_body (req : WebhookRequest) (st : WorldState) : Nat × WorldState :=
  let p := req.payload
  if !truthyStr p.order_id || !truthyStr p.status || !truthyInt p.amount then
    (400, st)
  else
    let oid := p.order_id.getD ""
    if p.status == some "completed" then
      if truthyInt p.telegram_id then
        (200, { st with sent_messages :=
          st.sent_messages ++ [(p.telegram_id.getD 0, fulfilment_message oid)] })
      else
        match extract_telegram_id oid with
        | none => (400, st)
        | some t =>
          (200, { st with sent_messages :=
            st.sent_messages ++ [(t, fulfilment_message oid)] })
    else if p.status == some "expired" then (200, st)
    else if p.status == some "pending" then (200, st)
    else (200, st)

/-- `pakasir_webhook` (src/main.py): the signature is checked only when
a secret is configured AND the `X-Pakasir-Signature` header is present
(`if settings.pakasir_webhook_secret and signature:`); a failed check
returns 401 untouched, otherwise the body runs. -/
def pakasir_webhook (cfg : AppConfig) (req : WebhookRequest) (st : WorldState) :
    Nat × WorldState :=
  if cfg.pakasir_webhook_secret.isSome && req.signature.isSome then
    if !validate_webhook_signature cfg.pakasir_webhook_secret
        (req.signature.getD "") req.payload then
      (401, st)
    else pakasir_webhook_body req st
  else pakasir_webhook_body req st

/-! ## Concrete stores used by witnesses and counterexamples -/

/-- The unsold-units-of-the-product predicate underlying
`get_available_stocks`/`get_available_stock_count`. -/
def availP (product_id : Nat) (s : ProductStock) : Bool :=
  s.product_id == product_id && s.is_sold == false

/-- The caller protocol `OrderRepository.create` documents ("Caller must
check has_pending_order() first (CR-002)"): check, then insert; the
`none` outcome stands for the DuplicatePendingOrder rejection. -/
def create_order_guarded (db : DB) (order : Order) : Option Order × DB :=
  if OrderRepository.has_pending_order db order.user_id then (none, db)
  else (some order, (OrderRepository.create db order).2)

/-- A stock unit reserved for order 42, used to instantiate the stock
theorems. -/
def stockA : ProductStock :=
  { id := 1, product_id := 9, content := "KEY-A", order_id := some 42,
    is_sold := true, updated_at := 0 }

/-- An unreserved, unsold stock unit. -/
def stockB : ProductStock :=
  { id := 2, product_id := 9, content := "KEY-B", order_id := none,
    is_sold := false, updated_at := 0 }

/-- A two-unit store: unit 1 is reserved for order 42, unit 2 is free. -/
def stockDB : DB :=
  { orders := [], stocks := [stockA, stockB] }

/-- A template order row. -/
def baseOrder : Order :=
  { id := 1, invoice_id := "INV-1", user_id := 7, subtotal := 100000,
    voucher_discount := 0, payment_fee := 1010, total_bill := 101010,
    payment_method := "qris", status := "pending", created_at := 0,
    updated_at := 0, items := [] }

/-- A store holding one order (id 1, user 7) already in the terminal
status `"expired"`. -/
def expiredDB : DB :=
  { orders := [{ baseOrder with status := "expired" }], stocks := [] }

/-- A store holding one order (id 2, user 7) already in the terminal
status `"paid"`. -/
def paidDB : DB :=
  { orders := [{ baseOrder with id := 2, status := "paid" }], stocks := [] }

/-- A store holding one pending order of user 7. -/
def pendingDB : DB :=
  { orders := [baseOrder], stocks := [] }

/-- A second order of user 7, also pending. -/
def secondOrder : Order :=
  { baseOrder with id := 3, invoice_id := "INV-3" }

/-- Order `i` of the overload store: pending, created at time 0. -/
def mkPendingOrder (i : Nat) : Order :=
  { id := i, invoice_id := "INV", user_id := i, subtotal := 0,
    voucher_discount := 0, payment_fee := 0, total_bill := 0,
    payment_method := "qris", status := "pending", created_at := 0,
    updated_at := 0, items := [] }

/-- 101 stale pending orders — one more than the sweeper's default
`limit` of 100. -/
def sweepDB : DB :=
  { orders := (List.range 101).map mkPendingOrder, stocks := [] }

/-- The documented sample webhook payload (src/main.py docstring), with
`metadata.telegram_id` present. -/
def samplePayload : WebhookPayload :=
  { order_id := some "tg12345-ORDER123", status := some "completed",
    amount := some 22000, payment_method := some "qris",
    telegram_id := some 12345 }

/-- The sample payload delivered without a signature header. -/
def sampleRequest : WebhookRequest :=
  { payload := samplePayload, signature := none }

/-- The sample payload delivered with an incorrect signature header. -/
def badSigRequest : WebhookRequest :=
  { payload := samplePayload, signature := some "wrong-signature" }

/-- Deployment without a webhook secret (the source default). -/
def noSecretConfig : AppConfig := { pakasir_webhook_secret := none }

/-- Deployment with a webhook secret configured. -/
def secretConfig : AppConfig := { pakasir_webhook_secret := some "whsec_1" }

/-- World before any webhook arrives: user 7's order is pending, no
message sent yet. -/
def initialState : WorldState := { db := pendingDB, sent_messages := [] }

/-! ## Theorems -/

open OrderRepository ProductRepository

section StockClaims

/-- `release_stock` applied to a store with no unit reserved for the
order releases nothing and leaves the store as it was. -/
lemma release_stock_of_no_match (db : DB) (order_id : Nat)
    (h : ∀ s ∈ db.stocks, s.order_id ≠ some order_id) :
    release_stock db order_id = (0, db) := by
  unfold release_stock
  have hfil : db.stocks.filter (fun s => s.order_id == some order_id) = [] := by
    rw [List.filter_eq_nil_iff]
    intro s hs
    simpa using h s hs
  have hmap : db.stocks.map (fun s =>
      if s.order_id == some order_id then { s with is_sold := false, order_id := none }
      else s) = db.stocks := by
    rw [List.map_congr_left (g := id), List.map_id]
    intro s hs
    simp [h s hs]
  rw [hfil, hmap]
  rfl

/-- After `release_stock db order_id`, no unit remains reserved for the
same order. -/
lemma release_stock_clears (db : DB) (order_id : Nat) :
    ∀ s ∈ (release_stock db order_id).2.stocks, s.order_id ≠ some order_id := by
  intro s hs
  unfold release_stock at hs
  simp only [List.mem_map] at hs
  obtain ⟨a, _, rfl⟩ := hs
  by_cases hmatch : a.order_id = some order_id
  · simp [hmatch]
  · simp [hmatch]

/-- C8: `release_stock(order_id)` returns the number of units reserved
for the order, sets each of them to `is_sold = false, order_id = none`,
leaves every other unit in place, is a no-op returning 0 on an order
with no reservations, and a second call on the same order is a no-op
returning 0 rather than an error. -/
theorem release_stock_idempotent (db : DB) (order_id : Nat) :
    ((release_stock db order_id).1 =
      (db.stocks.filter (fun s => s.order_id == some order_id)).length)
    ∧ (∀ s ∈ db.stocks, s.order_id = some order_id →
        { s with is_sold := false, order_id := none } ∈
          (release_stock db order_id).2.stocks)
    ∧ (∀ s ∈ db.stocks, s.order_id ≠ some order_id →
        s ∈ (release_stock db order_id).2.stocks)
    ∧ ((∀ s ∈ db.stocks, s.order_id ≠ some order_id) →
        release_stock db order_id = (0, db))
    ∧ (release_stock (release_stock db order_id).2 order_id =
        (0, (release_stock db order_id).2)) := by
  refine ⟨rfl, ?_, ?_, release_stock_of_no_match db order_id, ?_⟩
  · intro s hs hmatch
    unfold release_stock
    simp only
    have := List.mem_map_of_mem (f := fun s : ProductStock =>
      if s.order_id == some order_id then { s with is_sold := false, order_id := none }
      else s) hs
    simpa [hmatch] using this
  · intro s hs hmatch
    unfold release_stock
    simp only
    have := List.mem_map_of_mem (f := fun s : ProductStock =>
      if s.order_id == some order_id then { s with is_sold := false, order_id := none }
      else s) hs
    simpa [hmatch] using this
  · exact release_stock_of_no_match _ _ (release_stock_clears db order_id)

/-- Witness for `release_stock_idempotent` at `stockDB`/order 42. -/
theorem release_stock_idempotent_witness :
    { stockA with is_sold := false, order_id := none } ∈
      (release_stock stockDB 42).2.stocks
    ∧ release_stock (release_stock stockDB 42).2 42 =
        (0, (release_stock stockDB 42).2) := by
  have h := release_stock_idempotent stockDB 42
  exact ⟨h.2.1 stockA (by decide) rfl, h.2.2.2.2⟩

/-- C10: the single-unit admin delete never removes a sold unit — if the
unit addressed by `stock_id` exists and is sold, `delete_stock` returns
`False` and the store is unchanged; a `True` result certifies that the
addressed unit existed and was unsold. -/
theorem delete_stock_spares_sold (db : DB) (stock_id : Nat) :
    (∀ s, get_stock_by_id db stock_id = some s → s.is_sold = true →
      delete_stock db stock_id = (false, db))
    ∧ ((delete_stock db stock_id).1 = true →
      ∃ s, get_stock_by_id db stock_id = some s ∧ s.is_sold = false) := by
  constructor
  · intro s hs hsold
    unfold delete_stock
    unfold get_stock_by_id at hs
    rw [hs]
    simp [hsold]
  · intro h
    unfold delete_stock at h
    rcases hfind : db.stocks.find? (fun s => s.id == stock_id) with _ | s
    · rw [hfind] at h
      simp at h
    · rw [hfind] at h
      by_cases hsold : s.is_sold
      · simp [hsold] at h
      · exact ⟨s, by unfold get_stock_by_id; rw [hfind], by simpa using hsold⟩

/-- Witness for `delete_stock_spares_sold`: deleting the sold unit 1 of
`stockDB` fails and changes nothing; deleting the unsold unit 2
succeeds. -/
theorem delete_stock_spares_sold_witness :
    delete_stock stockDB 1 = (false, stockDB)
    ∧ (∃ s, get_stock_by_id stockDB 2 = some s ∧ s.is_sold = false) := by
  refine ⟨(delete_stock_spares_sold stockDB 1).1
    { id := 1, product_id := 9, content := "KEY-A", order_id := some 42,
      is_sold := true, updated_at := 0 } (by decide) rfl,
    (delete_stock_spares_sold stockDB 2).2 (by decide)⟩

/-- The units `reserve_stock` marks are the first `quantity` available
ones, whether the Python-truthy `limit` was applied or not. -/
lemma get_available_stocks_take (db : DB) (product_id quantity : Nat) :
    (get_available_stocks db product_id (some quantity)).take quantity =
      (db.stocks.filter (availP product_id)).take quantity := by
  unfold get_available_stocks availP
  by_cases h0 : quantity = 0
  · subst h0; simp
  · simp [h0, List.take_take]

/-- Length of the limited available-stock query. -/
lemma get_available_stocks_length (db : DB) (product_id quantity : Nat) :
    (get_available_stocks db product_id (some quantity)).length =
      if quantity = 0 then get_available_stock_count db product_id
      else min quantity (get_available_stock_count db product_id) := by
  unfold get_available_stocks get_available_stock_count
  by_cases h0 : quantity = 0
  · subst h0; simp
  · simp [h0, List.length_take]

/-- C5: `reserve_stock` is all-or-nothing.  With fewer than `quantity`
available units it fails (`ValueError`) and the store is untouched; with
enough units it returns exactly `quantity` units of the product, each
marked `is_sold = true` and reserved for `order_id`, and every unit
whose id is not among the returned ones is exactly as before. -/
theorem reserve_stock_all_or_nothing (db : DB) (product_id quantity order_id : Nat) :
    (get_available_stock_count db product_id < quantity →
      (∃ msg, (reserve_stock db product_id quantity order_id).1 = .error msg)
      ∧ (reserve_stock db product_id quantity order_id).2 = db)
    ∧ (quantity ≤ get_available_stock_count db product_id →
      ∃ l, (reserve_stock db product_id quantity order_id).1 = .ok l
        ∧ l.length = quantity
        ∧ (∀ s ∈ l, s.is_sold = true ∧ s.order_id = some order_id ∧
            s.product_id = product_id)
        ∧ (∀ s ∈ (reserve_stock db product_id quantity order_id).2.stocks,
            s.id ∉ l.map (fun t => t.id) → s ∈ db.stocks)) := by
  constructor
  · intro h
    have hq0 : quantity ≠ 0 := by omega
    have hlen : (get_available_stocks db product_id (some quantity)).length < quantity := by
      rw [get_available_stocks_length]
      simp [hq0]
      omega
    unfold reserve_stock
    rw [if_pos hlen]
    exact ⟨⟨_, rfl⟩, rfl⟩
  · intro h
    have hlen : ¬ (get_available_stocks db product_id (some quantity)).length < quantity := by
      rw [get_available_stocks_length]
      by_cases h0 : quantity = 0 <;> simp [h0] <;> omega
    unfold reserve_stock
    rw [if_neg hlen]
    simp only
    refine ⟨_, rfl, ?_, ?_, ?_⟩
    · rw [List.length_map, get_available_stocks_take, List.length_take]
      unfold get_available_stock_count at h
      unfold availP
      omega
    · intro s hs
      simp only [List.mem_map] at hs
      obtain ⟨a, ha, rfl⟩ := hs
      have ha' : a ∈ db.stocks.filter (availP product_id) := by
        rw [get_available_stocks_take] at ha
        exact List.take_subset _ _ ha
      have := (List.mem_filter.mp ha').2
      unfold availP at this
      simp only [Bool.and_eq_true, beq_iff_eq] at this
      exact ⟨rfl, rfl, this.1⟩
    · intro s hs hid
      simp only [List.mem_map] at hs
      obtain ⟨a, ha, rfl⟩ := hs
      by_cases hc : ((get_available_stocks db product_id (some quantity)).take
          quantity).map (fun s => s.id) |>.contains a.id
      · exfalso
        apply hid
        simp only [if_pos hc]
        simp only [List.map_map]
        simpa using hc
      · rw [if_neg hc]
        exact ha

/-- Witness for `reserve_stock_all_or_nothing`: `stockDB` has exactly
one available unit of product 9, so reserving two fails and reserving
one succeeds. -/
theorem reserve_stock_all_or_nothing_witness :
    ((∃ msg, (reserve_stock stockDB 9 2 77).1 = .error msg)
      ∧ (reserve_stock stockDB 9 2 77).2 = stockDB)
    ∧ (∃ l, (reserve_stock stockDB 9 1 77).1 = .ok l
        ∧ l.length = 1
        ∧ (∀ s ∈ l, s.is_sold = true ∧ s.order_id = some 77 ∧ s.product_id = 9)
        ∧ (∀ s ∈ (reserve_stock stockDB 9 1 77).2.stocks,
            s.id ∉ l.map (fun t => t.id) → s ∈ stockDB.stocks)) :=
  ⟨(reserve_stock_all_or_nothing stockDB 9 2 77).1 (by decide),
   (reserve_stock_all_or_nothing stockDB 9 1 77).2 (by decide)⟩

end StockClaims

section OrderClaims

/-- C1 counterexample: `complete_order` on an order whose status is
`"expired"` does not fail — it returns the order and overwrites the
status with `"paid"`, so the claimed InvalidTransition guard and the
claimed unchanged-status failure behaviour are both absent. -/
theorem complete_order_unguarded_cex :
    (get_by_id expiredDB 1).map (fun o => o.status) = some "expired"
    ∧ ((complete_order expiredDB 1 5).1.map (fun o => o.status)) = some "paid"
    ∧ ((complete_order expiredDB 1 5).2.orders.map (fun o => o.status)) = ["paid"] := by
  decide

/-- C1 (amended): `complete_order` marks any existing order `"paid"`
regardless of its current status — every stored order with the given id
ends up `"paid"` and the updated row is returned — and it returns `none`
leaving the store untouched only when no such order exists. -/
theorem complete_order_amended (db : DB) (order_id : Nat) (now : Int) :
    (∀ o, get_by_id db order_id = some o →
      (complete_order db order_id now).1 =
        some { o with status := "paid", updated_at := now }
      ∧ ∀ o' ∈ (complete_order db order_id now).2.orders,
          o'.id = order_id → o'.status = "paid")
    ∧ (get_by_id db order_id = none → complete_order db order_id now = (none, db)) := by
  constructor
  · intro o ho
    unfold complete_order
    rw [ho]
    refine ⟨rfl, ?_⟩
    intro o' ho' hid
    simp only [List.mem_map] at ho'
    obtain ⟨p, _, rfl⟩ := ho'
    by_cases hpid : p.id = order_id
    · simp [hpid]
    · have hbeq : (p.id == order_id) = false := by simpa using hpid
      rw [if_neg (by simp [hbeq])] at hid ⊢
      exact absurd hid hpid
  · intro hnone
    unfold complete_order
    rw [hnone]

/-- Witness for `complete_order_amended` at `expiredDB`. -/
theorem complete_order_amended_witness :
    (complete_order expiredDB 1 5).1 =
      some { { baseOrder with status := "expired" } with status := "paid", updated_at := 5 }
    ∧ complete_order expiredDB 2 5 = (none, expiredDB) := by
  refine ⟨((complete_order_amended expiredDB 1 5).1
    { baseOrder with status := "expired" } (by decide)).1, ?_⟩
  exact (complete_order_amended expiredDB 2 5).2 (by decide)

/-- C4 counterexample: `cancel_order` moves an order out of the terminal
status `"paid"` — it reports success and rewrites the status to
`"cancelled"`. -/
theorem cancel_order_terminal_cex :
    (get_by_id paidDB 2).map (fun o => o.status) = some "paid"
    ∧ (cancel_order paidDB 2 9).1 = true
    ∧ ((cancel_order paidDB 2 9).2.orders.map (fun o => o.status)) = ["cancelled"] := by
  decide

/-- C4 (amended): only `expire_order` protects terminal states — it
refuses (returning `False`, store unchanged) whenever the order is not
`"pending"` — while `cancel_order` and `update_status` overwrite the
status of any existing order regardless of its current value
(`complete_order` likewise, as proved separately). -/
theorem order_status_guards (db : DB) (order_id : Nat) (new_status : String) (now : Int) :
    (∀ o, get_by_id db order_id = some o → o.status ≠ "pending" →
      expire_order db order_id now = (false, db))
    ∧ (∀ o' ∈ (cancel_order db order_id now).2.orders,
        o'.id = order_id → o'.status = "cancelled")
    ∧ (∀ o' ∈ (update_status db order_id new_status now).2.orders,
        o'.id = order_id → o'.status = new_status) := by
  refine ⟨?_, ?_, ?_⟩
  · intro o ho hstat
    unfold expire_order
    rw [ho]
    simp [hstat]
  · intro o' ho' hid
    unfold cancel_order at ho'
    rcases hfind : get_by_id db order_id with _ | o
    · rw [hfind] at ho'
      simp only at ho'
      have := List.find?_eq_none.mp hfind o' ho'
      simp at this
      exact absurd hid this
    · rw [hfind] at ho'
      simp only [List.mem_map] at ho'
      obtain ⟨p, _, rfl⟩ := ho'
      by_cases hpid : p.id = order_id
      · simp [hpid]
      · have hbeq : (p.id == order_id) = false := by simpa using hpid
        rw [if_neg (by simp [hbeq])] at hid ⊢
        exact absurd hid hpid
  · intro o' ho' hid
    unfold update_status at ho'
    rcases hfind : get_by_id db order_id with _ | o
    · rw [hfind] at ho'
      simp only at ho'
      have := List.find?_eq_none.mp hfind o' ho'
      simp at this
      exact absurd hid this
    · rw [hfind] at ho'
      simp only [List.mem_map] at ho'
      obtain ⟨p, _, rfl⟩ := ho'
      by_cases hpid : p.id = order_id
      · simp [hpid]
      · have hbeq : (p.id == order_id) = false := by simpa using hpid
        rw [if_neg (by simp [hbeq])] at hid ⊢
        exact absurd hid hpid

/-- Witness for `order_status_guards` at `paidDB`. -/
theorem order_status_guards_witness :
    expire_order paidDB 2 9 = (false, paidDB) := by
  exact (order_status_guards paidDB 2 "x" 9).1 { baseOrder with id := 2, status := "paid" }
    (by decide) (by decide)

/-- C3 counterexample: `OrderRepository.create` performs no
duplicate-pending check — creating a second pending order for user 7,
who already has one, succeeds and leaves two pending orders. -/
theorem create_second_pending_cex :
    has_pending_order pendingDB 7 = true
    ∧ (create pendingDB secondOrder).1 = secondOrder
    ∧ ((create pendingDB secondOrder).2.orders.countP
        (fun o => o.user_id == 7 && o.status == "pending")) = 2 := by
  decide

/-- C3 (amended): `create` itself inserts unconditionally, so it does
not preserve the single-pending invariant; the documented caller
protocol — reject when `has_pending_order`, insert otherwise
(`create_order_guarded`) — does preserve "at most one pending order per
user". -/
theorem guarded_create_preserves_single_pending (db : DB) (order : Order)
    (hinv : ∀ uid, db.orders.countP
      (fun o => o.user_id == uid && o.status == "pending") ≤ 1) :
    ∀ uid, (create_order_guarded db order).2.orders.countP
      (fun o => o.user_id == uid && o.status == "pending") ≤ 1 := by
  intro uid
  unfold create_order_guarded
  by_cases hpend : has_pending_order db order.user_id
  · rw [if_pos hpend]
    exact hinv uid
  · rw [if_neg hpend]
    unfold create
    simp only [List.countP_append]
    by_cases huser : order.user_id = uid ∧ order.status = "pending"
    · obtain ⟨h1, h2⟩ := huser
      subst h1
      have hb : has_pending_order db order.user_id = false := by
        simpa using hpend
      unfold has_pending_order at hb
      have hz : ¬ (0 < db.orders.countP
          (fun o => o.user_id == order.user_id && o.status == "pending")) :=
        of_decide_eq_false hb
      have hone : List.countP
          (fun o => o.user_id == order.user_id && o.status == "pending")
          [order] ≤ 1 := by
        simp only [List.countP_cons, List.countP_nil]
        split <;> omega
      omega
    · have hz : List.countP (fun o => o.user_id == uid && o.status == "pending")
          [order] = 0 := by
        simp only [List.countP_cons, List.countP_nil]
        have hfalse : (order.user_id == uid && order.status == "pending") = false := by
          rcases not_and_or.mp huser with h | h <;> simp [h]
        simp [hfalse]
      have := hinv uid
      omega

/-- Witness for `guarded_create_preserves_single_pending` at
`pendingDB`: the guarded insert rejects the duplicate, keeping the
pending count at one. -/
theorem guarded_create_preserves_single_pending_witness :
    (pendingDB.orders.countP (fun o => o.user_id == 7 && o.status == "pending") ≤ 1)
    ∧ ∀ uid, (create_order_guarded pendingDB secondOrder).2.orders.countP
        (fun o => o.user_id == uid && o.status == "pending") ≤ 1 := by
  refine ⟨by decide, guarded_create_preserves_single_pending pendingDB secondOrder ?_⟩
  intro uid
  unfold pendingDB baseOrder
  simp only [List.countP_cons, List.countP_nil]
  split <;> omega

end OrderClaims

section SweeperClaims

/-- C9 counterexample: with 101 stale pending orders and the source's
default `limit` of 100, order 100 satisfies the expiry predicate at
sweep time yet is not in the selected set. -/
theorem get_expired_payments_limit_cex :
    mkPendingOrder 100 ∈ sweepDB.orders
    ∧ (mkPendingOrder 100).status = "pending"
    ∧ (mkPendingOrder 100).created_at ≤ 600 - paymentWindowSeconds
    ∧ mkPendingOrder 100 ∉ get_expired_payments sweepDB 600 100 := by
  refine ⟨?_, rfl, by norm_num [mkPendingOrder, paymentWindowSeconds], ?_⟩
  · exact List.mem_map_of_mem _ (List.mem_range.mpr (by norm_num))
  · intro hmem
    have hfil : sweepDB.orders.filter (fun o =>
        o.status == "pending" && decide (o.created_at ≤ 600 - paymentWindowSeconds)) =
          sweepDB.orders := by
      rw [List.filter_eq_self]
      intro a ha
      obtain ⟨i, _, rfl⟩ := List.mem_map.mp ha
      simp [mkPendingOrder, paymentWindowSeconds]
    unfold get_expired_payments at hmem
    rw [hfil] at hmem
    have hmem' : mkPendingOrder 100 ∈
        ((List.range 101).take 100).map mkPendingOrder := by
      rw [List.map_take]
      exact hmem
    rw [List.take_range] at hmem'
    obtain ⟨i, hi, heq⟩ := List.mem_map.mp hmem'
    have hid : i = 100 := by
      simpa [mkPendingOrder] using congrArg Order.id heq
    rw [List.mem_range] at hi
    omega

/-- C9 (amended): the sweep selection is sound — everything selected is
a stored pending order past the 10-minute window — and complete only up
to the `limit`: whenever at most `limit` orders satisfy the predicate,
every satisfying order is selected. -/
theorem get_expired_payments_sound_complete (db : DB) (now : Int) (limit : Nat) :
    (∀ o ∈ get_expired_payments db now limit,
      o ∈ db.orders ∧ o.status = "pending"
        ∧ o.created_at ≤ now - paymentWindowSeconds)
    ∧ (db.orders.countP (fun o => o.status == "pending" &&
          decide (o.created_at ≤ now - paymentWindowSeconds)) ≤ limit →
        ∀ o ∈ db.orders, o.status = "pending" →
          o.created_at ≤ now - paymentWindowSeconds →
          o ∈ get_expired_payments db now limit) := by
  constructor
  · intro o ho
    unfold get_expired_payments at ho
    have h1 := List.take_subset _ _ ho
    have h2 := List.mem_filter.mp h1
    have h3 := h2.2
    simp only [Bool.and_eq_true, beq_iff_eq, decide_eq_true_eq] at h3
    exact ⟨h2.1, h3.1, h3.2⟩
  · intro hcount o ho hstat htime
    unfold get_expired_payments
    rw [List.take_of_length_le]
    · exact List.mem_filter.mpr ⟨ho, by simp [hstat, htime]⟩
    · rw [← List.countP_eq_length_filter]
      exact hcount

/-- Witness for `get_expired_payments_sound_complete`: user 7's stale
pending order is selected by the sweep query. -/
theorem get_expired_payments_sound_complete_witness :
    baseOrder ∈ get_expired_payments pendingDB 600 100 :=
  (get_expired_payments_sound_complete pendingDB 600 100).2 (by decide)
    baseOrder (by decide) rfl (by decide)

end SweeperClaims

section FeeClaims

/-- C7 counterexample: at subtotal 500 the code truncates
(`int(3.5000000000000000728...) = 3`, fee 313) while the spec's
`round(subtotal * feeRate) + fixedFee` gives `round(3.5) + 310 = 314`. -/
theorem calculate_payment_fee_round_cex :
    Settings.calculate_payment_fee 500 = 313 ∧ spec_payment_fee 500 = 314 := by
  constructor
  · unfold Settings.calculate_payment_fee Settings.payment_fee_percentage
      Settings.payment_fee_fixed
    norm_num
  · unfold spec_payment_fee
    rw [round_eq]
    norm_num

/-- C7 (amended): the fee is the truncated (not rounded) percentage plus
the fixed fee — for every subtotal up to 10^12 rupiah,
`fee = ⌊7 * subtotal / 1000⌋ + 310` — and the subtotal-100,000 scenario
still bills a total of 101,010. -/
theorem calculate_payment_fee_trunc (s : Nat) (hs : s ≤ 10 ^ 12) :
    Settings.calculate_payment_fee s = (7 * s / 1000 : Nat) + 310
    ∧ (100000 : Int) + Settings.calculate_payment_fee 100000 = 101010 := by
  constructor
  · have hq : Settings.payment_fee_percentage = 7 / 1000 + 168 / (1000 * 2 ^ 60) := by
      unfold Settings.payment_fee_percentage
      norm_num
    have hdecomp : 1000 * (7 * s / 1000) + 7 * s % 1000 = 7 * s :=
      Nat.div_add_mod (7 * s) 1000
    have hrlt : 7 * s % 1000 < 1000 := Nat.mod_lt _ (by norm_num)
    have hsq : (s : ℚ) ≤ 10 ^ 12 := by exact_mod_cast hs
    have hs0 : (0 : ℚ) ≤ (s : ℚ) := by positivity
    have hdq : 1000 * ((7 * s / 1000 : Nat) : ℚ) + ((7 * s % 1000 : Nat) : ℚ)
        = 7 * (s : ℚ) := by exact_mod_cast hdecomp
    have hrq : ((7 * s % 1000 : Nat) : ℚ) ≤ 999 := by
      exact_mod_cast Nat.lt_succ_iff.mp hrlt
    have hr0 : (0 : ℚ) ≤ ((7 * s % 1000 : Nat) : ℚ) := by positivity
    have hkey : ⌊(s : ℚ) * Settings.payment_fee_percentage⌋
        = ((7 * s / 1000 : Nat) : ℤ) := by
      rw [hq, Int.floor_eq_iff]
      simp only [Int.cast_natCast]
      constructor
      · linarith [hdq, hr0, hs0]
      · linarith [hdq, hrq, hsq]
    unfold Settings.calculate_payment_fee Settings.payment_fee_fixed
    rw [hkey]
  · unfold Settings.calculate_payment_fee Settings.payment_fee_percentage
      Settings.payment_fee_fixed
    norm_num

/-- Witness for `calculate_payment_fee_trunc` at subtotal 100,000:
`⌊700000/1000⌋ + 310 = 1010`. -/
theorem calculate_payment_fee_trunc_witness :
    Settings.calculate_payment_fee 100000 = (7 * 100000 / 1000 : Nat) + 310 :=
  (calculate_payment_fee_trunc 100000 (by norm_num)).1

end FeeClaims

section WebhookClaims

/-- C2: replaying the same `completed` webhook payload — both deliveries
return 200, but each one appends another fulfilment message, and the
order store is never touched by the handler: user 7's order is still
`"pending"` afterwards, so neither the emit-once property nor the
pending→paid transition holds. -/
theorem webhook_replay_duplicates_fulfilment :
    (pakasir_webhook noSecretConfig sampleRequest initialState).1 = 200
    ∧ (pakasir_webhook noSecretConfig sampleRequest
        (pakasir_webhook noSecretConfig sampleRequest initialState).2).1 = 200
    ∧ (pakasir_webhook noSecretConfig sampleRequest
        (pakasir_webhook noSecretConfig sampleRequest
          initialState).2).2.sent_messages.length = 2
    ∧ (pakasir_webhook noSecretConfig sampleRequest
        (pakasir_webhook noSecretConfig sampleRequest initialState).2).2.db
        = initialState.db
    ∧ (get_by_id (pakasir_webhook noSecretConfig sampleRequest
        (pakasir_webhook noSecretConfig sampleRequest initialState).2).2.db 1).map
          (fun o => o.status) = some "pending" := by
  decide

/-- C6: with a webhook secret configured, an incorrect
`X-Pakasir-Signature` is accepted — the TODO-stub validator returns
`True` for every signature, so the handler answers 200 instead of 401
and still emits the fulfilment message. -/
theorem webhook_wrong_signature_accepted :
    validate_webhook_signature (some "whsec_1") "wrong-signature" samplePayload = true
    ∧ (pakasir_webhook secretConfig badSigRequest initialState).1 = 200
    ∧ (pakasir_webhook secretConfig badSigRequest initialState).2.sent_messages.length
        = 1 := by
  decide

end WebhookClaims

end QuickCart
